import Mathlib

/-!
Verification development for the unified log parser core
(`bot/parsers/unified_log_parser.py` and `bot/utils/embed_factory.py`).

The Python code is shallowly embedded as executable Lean definitions:

* `splitlines` models `str.splitlines()` on newline-separated log text.
* The regex matchers of `_compile_patterns` are embedded as explicit
  character-list scanners (`matchQueueJoin`, `matchRegistered`,
  `matchDisconnect`, `matchMissionStateChange`, `matchTimestamp`, and the
  boolean world-event matchers), reproducing `re.search` semantics
  (leftmost match, backtracking over start positions, case-insensitive
  literals, greedy character-class runs).
* `parseLogContent` models `UnifiedLogParser.parse_log_content`,
  with the parser's mutable dictionaries (`file_states`,
  `player_lifecycle`, `player_sessions`, `player_name_cache`) carried as
  explicit association lists in `ParserState`, and the Mongo-backed
  `_save_persistent_state` modelled as an explicit snapshot plus a
  `saveOk` flag for the success of the database write (the Python code
  catches every exception of the write, so the call itself never fails).
* `resolvePlayerName` models `UnifiedLogParser.resolve_player_name`,
  with the database-backed lookups supplied as a `ResolveDb` record of
  query results.
* `get_mission_level` models `EmbedFactory.get_mission_level`.

Wall-clock fields of the Python records (`queued_at`, `joined_at`,
`last_updated`, …) are produced by `datetime.now` and affect no claim;
they are elided from the embedded records.  Notifications are modelled
as tagged `Notification` values carrying the fields the parser puts into
the embed data; the visual embed rendering is external to the core.
-/

/-! ### Executable string primitives

The embedded code uses character-list implementations of the Python
string operations throughout, so that every definition reduces inside
the kernel and concrete runs can be settled by `decide`. -/

def strLower (s : String) : String := (s.data.map Char.toLower).asString

def strUpper (s : String) : String := (s.data.map Char.toUpper).asString

/-- Python slicing `s[:n]`. -/
def strTake (s : String) (n : Nat) : String := (s.data.take n).asString

/-- Python slicing `s[-n:]` (for `n ≤ len(s)`). -/
def strTakeRight (s : String) (n : Nat) : String :=
  (s.data.drop (s.data.length - n)).asString

def strStartsWith (s pat : String) : Bool := pat.data.isPrefixOf s.data

/-- Python `str.strip()`. -/
def strTrim (s : String) : String :=
  ((((s.data.dropWhile Char.isWhitespace).reverse).dropWhile Char.isWhitespace).reverse).asString

/-- Fuel-bounded worker for `strReplace` (the fuel is the input length,
which bounds the number of steps; the pattern is never empty here). -/
def replaceAux (pat repl : List Char) : Nat → List Char → List Char
  | _, [] => []
  | 0, cs => cs
  | fuel + 1, c :: cs =>
    if pat.isPrefixOf (c :: cs) then
      repl ++ replaceAux pat repl fuel (cs.drop (pat.length - 1))
    else c :: replaceAux pat repl fuel cs

/-- Python `str.replace` (left-to-right, non-overlapping). -/
def strReplace (s pat repl : String) : String :=
  (replaceAux pat.data repl.data s.data.length s.data).asString

/-! ### Python `str.splitlines` (newline-separated text)

`str.splitlines()` splits at line boundaries and does not produce a
trailing empty line for text ending in a newline.  Log content is
newline-separated, so the model splits at `'\n'`. -/

def splitAtNewlines : List Char → List (List Char)
  | [] => [[]]
  | '\n' :: rest => [] :: splitAtNewlines rest
  | c :: rest =>
    match splitAtNewlines rest with
    | [] => [[c]]
    | l :: ls => (c :: l) :: ls

def splitlines (s : String) : List String :=
  if s = "" then []
  else
    let parts := (splitAtNewlines s.data).map List.asString
    if parts.getLast? = some "" then parts.dropLast else parts

/-! ### Association-list model of the Python dictionaries -/

def mapGet {α : Type} (m : List (String × α)) (k : String) : Option α :=
  (m.find? (fun p => p.1 == k)).map (·.2)

def mapSet {α : Type} (m : List (String × α)) (k : String) (v : α) : List (String × α) :=
  match m with
  | [] => [(k, v)]
  | (k', v') :: rest => if k' = k then (k, v) :: rest else (k', v') :: mapSet rest k v

theorem mapGet_mapSet_self {α : Type} (m : List (String × α)) (k : String) (v : α) :
    mapGet (mapSet m k v) k = some v := by
  induction m with
  | nil => simp [mapGet, mapSet, List.find?_cons_of_pos]
  | cons p rest ih =>
    by_cases h : p.1 = k
    · simp [mapGet, mapSet, h, List.find?_cons_of_pos]
    · rw [mapSet, if_neg h]
      rw [mapGet, List.find?_cons_of_neg _ (by simpa using h)]
      exact ih

theorem mapGet_mapSet_ne {α : Type} (m : List (String × α)) (k k' : String) (v : α)
    (h : k ≠ k') : mapGet (mapSet m k v) k' = mapGet m k' := by
  induction m with
  | nil => simp [mapGet, mapSet, List.find?_cons_of_neg, h]
  | cons p rest ih =>
    by_cases hp : p.1 = k
    · rw [mapSet, if_pos hp]
      rw [mapGet, List.find?_cons_of_neg _ (by simpa using h),
        mapGet, List.find?_cons_of_neg _ (by simp [hp, h])]
    · rw [mapSet, if_neg hp]
      by_cases hp' : p.1 = k'
      · rw [mapGet, List.find?_cons_of_pos _ (by simpa using hp'),
          mapGet, List.find?_cons_of_pos _ (by simpa using hp')]
      · rw [mapGet, List.find?_cons_of_neg _ (by simpa using hp'),
          mapGet, List.find?_cons_of_neg _ (by simpa using hp')]
        exact ih

/-! ### Character-level scanning primitives for the regex embeddings -/

/-- Case-insensitive literal consumption: the needle is given in
lowercase; on success returns the haystack remainder after the literal
(`re.IGNORECASE` on a literal substring). -/
def ciStartsWith : List Char → List Char → Option (List Char)
  | [], hay => some hay
  | _ :: _, [] => none
  | n :: ns, h :: hs => if h.toLower = n then ciStartsWith ns hs else none

/-- Like `ciStartsWith`, but also returns the consumed original-case
characters (used where a regex capture group contains a literal). -/
def ciTakeLit : List Char → List Char → Option (List Char × List Char)
  | [], hay => some ([], hay)
  | _ :: _, [] => none
  | n :: ns, h :: hs =>
      if h.toLower = n then (ciTakeLit ns hs).map (fun p => (h :: p.1, p.2)) else none

/-- Leftmost-match search: try the partial matcher at every start
position, earliest first — the backtracking behaviour of `re.search`. -/
def firstSome {α : Type} (f : List Char → Option α) : List Char → Option α
  | [] => f []
  | c :: cs =>
    match f (c :: cs) with
    | some a => some a
    | none => firstSome f cs

/-- Remainder after the first case-insensitive occurrence of a literal. -/
def findCI (needle : List Char) (cs : List Char) : Option (List Char) :=
  firstSome (ciStartsWith needle) cs

/-- Ordered case-insensitive occurrence of several literals, modelling a
`A.*B.*C`-shaped regex used purely as a boolean test. -/
def inOrderCI (needles : List String) (line : String) : Bool :=
  (needles.foldl (fun acc n => acc.bind (findCI n.data)) (some line.data)).isSome

/-- Character class `[a-f0-9]` under `re.IGNORECASE`. -/
def isHexDigitCI (c : Char) : Bool :=
  c.isDigit || ('a' ≤ c && c ≤ 'f') || ('A' ≤ c && c ≤ 'F')

/-- Character class `[^&\?\s]` (the capture class for names/platform). -/
def isNameChar (c : Char) : Bool :=
  !(c = '&' || c = '?' || c.isWhitespace)

/-- Character class `[A-Za-z0-9_]` (mission identifiers). -/
def isMissionIdChar (c : Char) : Bool := c.isAlphanum || c = '_'

/-- Character class `[A-Z_]` under `re.IGNORECASE` (mission states). -/
def isStateChar (c : Char) : Bool := c.isAlpha || c = '_'

/-- Character class `[\d\.-]` (coordinate captures of world events). -/
def isCoordChar (c : Char) : Bool := c.isDigit || c = '.' || c = '-'

/-! ### Timestamp pattern `\[(\d{4}\.\d{2}\.\d{2}-\d{2}\.\d{2}\.\d{2}:\d{3})\]` -/

/-- Shape of the fixed-width timestamp body. -/
def tsShape : List (Char → Bool) :=
  let d := fun (c : Char) => c.isDigit
  let l := fun (x : Char) => fun (c : Char) => c = x
  [d, d, d, d, l '.', d, d, l '.', d, d, l '-',
   d, d, l '.', d, d, l '.', d, d, l ':', d, d, d]

def matchShape : List (Char → Bool) → List Char → Option (List Char × List Char)
  | [], cs => some ([], cs)
  | _ :: _, [] => none
  | p :: ps, c :: cs =>
      if p c then (matchShape ps cs).map (fun r => (c :: r.1, r.2)) else none

def timestampAt (cs : List Char) : Option String :=
  match cs with
  | '[' :: rest =>
    match matchShape tsShape rest with
    | some (body, ']' :: _) => some body.asString
    | _ => none
  | _ => none

/-- Model of `patterns['timestamp'].search(line)`, returning capture group 1. -/
def matchTimestamp (line : String) : Option String :=
  firstSome timestampAt line.data

/-! ### `player_registered`:
`LogOnline: Warning: Player \|([a-f0-9]+) successfully registered!` -/

def registeredAt (cs : List Char) : Option String := do
  let r1 ← ciStartsWith "logonline: warning: player |".data cs
  let run := r1.takeWhile isHexDigitCI
  if run.isEmpty then none
  else do
    let _ ← ciStartsWith " successfully registered!".data (r1.dropWhile isHexDigitCI)
    some run.asString

def matchRegistered (line : String) : Option String :=
  firstSome registeredAt line.data

/-! ### `player_disconnect`:
`LogNet: UChannel::Close: Sending CloseBunch.*?UniqueId: EOS:\|([a-f0-9]+)` -/

def disconnectIdAt (cs : List Char) : Option String := do
  let r ← ciStartsWith "uniqueid: eos:|".data cs
  let run := r.takeWhile isHexDigitCI
  if run.isEmpty then none else some run.asString

def disconnectAt (cs : List Char) : Option String := do
  let r ← ciStartsWith "lognet: uchannel::close: sending closebunch".data cs
  firstSome disconnectIdAt r

def matchDisconnect (line : String) : Option String :=
  firstSome disconnectAt line.data

/-! ### `player_queue_join`:
`LogNet: Join request: /Game/Maps/world_\d+/World_\d+\?.*?eosid=\|([a-f0-9]+).*?Name=([^&\?\s]+).*?(?:platformid=([^&\?\s]+))?` -/

/-- The tail `.*?(?:platformid=([^&\?\s]+))?` after the name capture: the
lazy star matches empty first and the optional group then either matches
at that exact position or matches empty, so group 3 is captured only when
`platformid=` directly follows the (greedy, hence maximal) name run. -/
def queueNameAt (cs : List Char) : Option (String × Option String) := do
  let r ← ciStartsWith "name=".data cs
  let run := r.takeWhile isNameChar
  if run.isEmpty then none
  else
    let rest := r.dropWhile isNameChar
    let pf :=
      match ciStartsWith "platformid=".data rest with
      | some r2 =>
        let prun := r2.takeWhile isNameChar
        if prun.isEmpty then none else some prun.asString
      | none => none
    some (run.asString, pf)

def queueEosAt (cs : List Char) : Option (String × String × Option String) := do
  let r ← ciStartsWith "eosid=|".data cs
  let run := r.takeWhile isHexDigitCI
  if run.isEmpty then none
  else do
    let np ← firstSome queueNameAt (r.dropWhile isHexDigitCI)
    some (run.asString, np.1, np.2)

def queueJoinAt (cs : List Char) : Option (String × String × Option String) := do
  let r1 ← ciStartsWith "lognet: join request: /game/maps/world_".data cs
  let d1 := r1.takeWhile Char.isDigit
  if d1.isEmpty then none
  else do
    let r2 ← ciStartsWith "/world_".data (r1.dropWhile Char.isDigit)
    let d2 := r2.takeWhile Char.isDigit
    if d2.isEmpty then none
    else
      match r2.dropWhile Char.isDigit with
      | '?' :: r3 => firstSome queueEosAt r3
      | _ => none

def matchQueueJoin (line : String) : Option (String × String × Option String) :=
  firstSome queueJoinAt line.data

/-! ### `mission_state_change`:
`LogSFPS: Mission (GA_[A-Za-z0-9_]+) switched to ([A-Z_]+)` -/

def missionAt (cs : List Char) : Option (String × String) := do
  let r1 ← ciStartsWith "logsfps: mission ".data cs
  let gl ← ciTakeLit "ga_".data r1
  let run := gl.2.takeWhile isMissionIdChar
  if run.isEmpty then none
  else do
    let r3 ← ciStartsWith " switched to ".data (gl.2.dropWhile isMissionIdChar)
    let st := r3.takeWhile isStateChar
    if st.isEmpty then none
    else some ((gl.1 ++ run).asString, st.asString)

def matchMissionStateChange (line : String) : Option (String × String) :=
  firstSome missionAt line.data

/-! ### World-event matchers used as boolean tests by the parser -/

/-- Pattern `airdrop_flying`: `LogSFPS:.*airdrop.*flying`. -/
def airdropFlying (line : String) : Bool :=
  inOrderCI ["logsfps:", "airdrop", "flying"] line

/-- Pattern `helicrash_crash`: `LogSFPS:.*helicopter.*crash`. -/
def helicrashCrash (line : String) : Bool :=
  inOrderCI ["logsfps:", "helicopter", "crash"] line

/-- Pattern `trader_arrival`: `LogSFPS:.*trader.*arrived`. -/
def traderArrival (line : String) : Bool :=
  inOrderCI ["logsfps:", "trader", "arrived"] line

/-- A `X=`/`Y=` coordinate capture `([\d\.-]+)`: the tag followed by a
nonempty coordinate run. -/
def coordAt (tag : List Char) (cs : List Char) : Option (List Char) := do
  let r ← ciStartsWith tag cs
  let run := r.takeWhile isCoordChar
  if run.isEmpty then none else some (r.dropWhile isCoordChar)

/-- Pattern `helicrash_event`:
`Helicrash.*spawned.*location.*X=([\d\.-]+).*Y=([\d\.-]+)` (the parser
only tests whether it matched). -/
def helicrashEvent (line : String) : Bool :=
  (do
    let r1 ← findCI "helicrash".data line.data
    let r2 ← findCI "spawned".data r1
    let r3 ← findCI "location".data r2
    let r4 ← firstSome (coordAt "x=".data) r3
    let _ ← firstSome (coordAt "y=".data) r4
    pure ()).isSome

/-! ### Name decoding (`urllib.parse.unquote` and the cleanup steps) -/

def hexVal (c : Char) : Option Nat :=
  let n := c.toNat
  if c.isDigit then some (n - 48)
  else if 97 ≤ n && n ≤ 102 then some (n - 87)
  else if 65 ≤ n && n ≤ 70 then some (n - 55)
  else none

/-- Single pass of percent-decoding (`urllib.parse.unquote`); multi-byte
UTF-8 escape sequences are modelled bytewise, which coincides with
Python on the ASCII names the log carries. -/
def percentDecodeAux : List Char → List Char
  | [] => []
  | '%' :: a :: b :: rest =>
    match hexVal a, hexVal b with
    | some x, some y => Char.ofNat (16 * x + y) :: percentDecodeAux rest
    | _, _ => '%' :: percentDecodeAux (a :: b :: rest)
  | c :: rest => c :: percentDecodeAux rest

def pythonUnquote (s : String) : String :=
  (percentDecodeAux s.data).asString

/-- Name cleanup applied to a queue-join capture:
`unquote`, `+` → space, `strip`, falling back to the raw name. -/
def cleanQueueName (raw : String) : String :=
  let decoded := pythonUnquote raw
  let clean := strTrim (strReplace decoded "+" " ")
  if clean = "" then strTrim raw else clean

/-- Up to three rounds of `unquote`, stopping at a fixpoint
(the decoding loop of `resolve_player_name`). -/
def iterUnquote (s : String) : String :=
  let s1 := pythonUnquote s
  if s1 = s then s
  else
    let s2 := pythonUnquote s1
    if s2 = s1 then s1 else pythonUnquote s2

/-- Character class kept by `re.sub(r'[^\w\s\-_\[\]().]', '', ...)`. -/
def allowedNameChar (c : Char) : Bool :=
  c.isAlphanum || c = '_' || c.isWhitespace ||
  c = '-' || c = '[' || c = ']' || c = '(' || c = ')' || c = '.'

/-- Full normalization of a lifecycle-stored name in
`resolve_player_name` method 1. -/
def cleanLifecycleName (name : String) : String :=
  let decoded := iterUnquote name
  let s1 := strReplace (strReplace decoded "+" " ") "%20" " "
  strTrim ((s1.data.filter allowedNameChar).asString)

/-! ### Mission name/level mapping (`EmbedFactory.get_mission_level`) -/

/-- Plain substring containment (Python `needle in hay`). -/
def containsSub (hay needle : String) : Bool :=
  (firstSome (fun cs => if needle.data.isPrefixOf cs then some () else none) hay.data).isSome

/-- Model of `EmbedFactory.get_mission_level`: keyword-group lookup on the
lowercased mission identifier. -/
def get_mission_level (missionId : String) : Nat :=
  let m := strLower missionId
  if containsSub m "military" || containsSub m "bunker" || containsSub m "khimmash" then 5
  else if containsSub m "airport" || containsSub m "promzone" || containsSub m "kamensk" then 4
  else if containsSub m "ind_" || containsSub m "industrial" then 3
  else if containsSub m "sawmill" || containsSub m "lighthouse" || containsSub m "elevator" then 2
  else 1

/-- True when the identifier hits any of the four keyword groups of
`get_mission_level`. -/
def missionKeywordHit (missionId : String) : Bool :=
  let m := strLower missionId
  containsSub m "military" || containsSub m "bunker" || containsSub m "khimmash" ||
  containsSub m "airport" || containsSub m "promzone" || containsSub m "kamensk" ||
  containsSub m "ind_" || containsSub m "industrial" ||
  containsSub m "sawmill" || containsSub m "lighthouse" || containsSub m "elevator"

/-! ### Data model of the parser state -/

/-- One entry of `file_states` (the Cursor Store document for a source);
the wall-clock `last_updated` field is elided. -/
structure FileState where
  lineCount : Nat
  coldStartComplete : Bool
  deriving Repr, DecidableEq

/-- One entry of `player_lifecycle`; the wall-clock state-entry
timestamps (`queued_at`, `joined_at`, `disconnected_at`) are elided. -/
structure LifecycleRec where
  name : String
  platform : String
  state : String
  deriving Repr, DecidableEq

/-- One entry of `player_sessions`; `joined_at`/`left_at` elided. -/
structure SessionRec where
  playerId : String
  playerName : String
  platform : String
  guildId : String
  status : String
  deriving Repr, DecidableEq

/-- A collected identity event of the first pass (`player_events`). -/
structure PlayerEvent where
  type : String
  playerId : String
  timestamp : Option String
  line : String
  deriving Repr, DecidableEq

/-- Domain notifications handed to the delivery layer, tagged with the
fields the parser places in the embed data. -/
inductive Notification where
  | playerConnected (playerName platform serverName : String)
  | playerDisconnected (playerName platform serverName : String)
  | mission (missionId : String) (level : Nat) (state : String)
  | airdrop
  | helicrash
  | trader
  deriving Repr, DecidableEq

/-- In-memory state of `UnifiedLogParser`, plus the persisted
`parser_state` document (`persisted`) written by
`_save_persistent_state`. -/
structure ParserState where
  fileStates : List (String × FileState)
  playerLifecycle : List (String × LifecycleRec)
  playerSessions : List (String × SessionRec)
  playerNameCache : List (String × String)
  persisted : Option (List (String × FileState))
  deriving Repr, DecidableEq

/-! ### First pass: collect identity events, mutating the lifecycle map -/

structure CollectAcc where
  lifecycle : List (String × LifecycleRec)
  events : List PlayerEvent
  deriving Repr, DecidableEq

/-- Placeholder display name `f"Player{player_id[:8].upper()}"`. -/
def placeholderName (playerId : String) : String :=
  "Player" ++ strUpper (strTake playerId 8)

/-- Processing of one line in the first pass of `parse_log_content`:
queue-join, registered and disconnect matches, applied in that order. -/
def collectLine (guildId : String) (acc : CollectAcc) (line : String) : CollectAcc :=
  let lineTimestamp := matchTimestamp line
  let acc :=
    match matchQueueJoin line with
    | some (playerId, rawName, pfTok) =>
      let platform0 :=
        match pfTok with
        | some p => if p = "" then "Unknown" else p
        | none => "Unknown"
      let platform :=
        if platform0.data.contains ':' then
          (platform0.data.takeWhile (fun c => !(c = ':'))).asString
        else platform0
      { acc with
        lifecycle := mapSet acc.lifecycle (guildId ++ "_" ++ playerId)
          { name := cleanQueueName rawName, platform := platform, state := "queued" } }
    | none => acc
  let acc :=
    match matchRegistered line with
    | some playerId =>
      let key := guildId ++ "_" ++ playerId
      let lc :=
        match mapGet acc.lifecycle key with
        | some r => mapSet acc.lifecycle key { r with state := "joined" }
        | none => mapSet acc.lifecycle key
            { name := placeholderName playerId, platform := "Unknown", state := "joined" }
      { lifecycle := lc,
        events := acc.events ++
          [{ type := "join", playerId := playerId, timestamp := lineTimestamp, line := line }] }
    | none => acc
  match matchDisconnect line with
  | some playerId =>
    let key := guildId ++ "_" ++ playerId
    match mapGet acc.lifecycle key with
    | some r =>
      if r.state = "joined" then
        { lifecycle := mapSet acc.lifecycle key { r with state := "disconnected" },
          events := acc.events ++
            [{ type := "disconnect", playerId := playerId, timestamp := lineTimestamp,
               line := line }] }
      else acc
    | none => acc
  | none => acc

def collectPhase (guildId : String) (lifecycle : List (String × LifecycleRec))
    (lines : List String) : CollectAcc :=
  lines.foldl (collectLine guildId) { lifecycle := lifecycle, events := [] }

/-! ### Chronological ordering of the collected events

`player_events.sort(key=lambda x: x['timestamp'] if x['timestamp'] else '')`:
a stable sort on the timestamp string, with a missing timestamp mapped
to the empty string.  Python compares strings by code points; `keyLeL`
is that order, and `sortEvents` is a stable insertion sort (extensionally
equal to any stable sort on this key). -/

def eventKey (e : PlayerEvent) : String :=
  e.timestamp.getD ""

/-- Code-point lexicographic `≤` on strings as character lists. -/
def keyLeL : List Char → List Char → Bool
  | [], _ => true
  | _ :: _, [] => false
  | a :: as, b :: bs =>
    if a.toNat < b.toNat then true
    else if b.toNat < a.toNat then false
    else keyLeL as bs

def keyLe (a b : String) : Bool := keyLeL a.data b.data

/-- Stable insertion: the new event goes after every earlier event whose
key is `≤` its key. -/
def insertEvent (e : PlayerEvent) : List PlayerEvent → List PlayerEvent
  | [] => [e]
  | x :: xs =>
    if keyLe (eventKey x) (eventKey e) then x :: insertEvent e xs
    else e :: x :: xs

def sortAux : List PlayerEvent → List PlayerEvent → List PlayerEvent
  | acc, [] => acc
  | acc, e :: es => sortAux (insertEvent e acc) es

/-- The sorted processing order of the accumulated identity events. -/
def sortEvents (evs : List PlayerEvent) : List PlayerEvent :=
  sortAux [] evs

/-! ### Second phase: apply the sorted events to the session table -/

structure ApplyAcc where
  sessions : List (String × SessionRec)
  notifs : List Notification
  voiceUpdate : Bool
  deriving Repr, DecidableEq

/-- Processing of one sorted identity event: session upsert/close,
voice-channel flag, and the notification (suppressed when cold). -/
def applyEvent (cold : Bool) (guildId serverName : String)
    (lifecycle : List (String × LifecycleRec)) (acc : ApplyAcc) (e : PlayerEvent) :
    ApplyAcc :=
  if e.type = "join" then
    let key := guildId ++ "_" ++ e.playerId
    let pn :=
      match mapGet lifecycle key with
      | some r => (r.name, r.platform)
      | none => (placeholderName e.playerId, "Unknown")
    let sessions := mapSet acc.sessions key
      { playerId := e.playerId, playerName := pn.1, platform := pn.2,
        guildId := guildId, status := "online" }
    let notifs :=
      if !cold then acc.notifs ++ [Notification.playerConnected pn.1 pn.2 serverName]
      else acc.notifs
    { sessions := sessions, notifs := notifs, voiceUpdate := true }
  else if e.type = "disconnect" then
    let key := guildId ++ "_" ++ e.playerId
    let sessionData := mapGet acc.sessions key
    let lifeData := mapGet lifecycle key
    let sessName :=
      match sessionData with
      | some s => s.playerName
      | none => placeholderName e.playerId
    let sessPlat :=
      match sessionData with
      | some s => s.platform
      | none => "Unknown"
    let playerName :=
      match lifeData with
      | some r => if r.name ≠ "" then r.name else sessName
      | none => sessName
    let platform :=
      match lifeData with
      | some r => if r.platform ≠ "" then r.platform else sessPlat
      | none => sessPlat
    let sessions :=
      match sessionData with
      | some s => mapSet acc.sessions key { s with status := "offline" }
      | none => acc.sessions
    let notifs :=
      if !cold then
        acc.notifs ++ [Notification.playerDisconnected playerName platform serverName]
      else acc.notifs
    { sessions := sessions, notifs := notifs, voiceUpdate := true }
  else acc

/-! ### Second pass over the slice: mission and world events -/

/-- Model of `create_mission_embed`: produces an embed for the three plain states;
`RESPAWN` needs a respawn time which `parse_log_content` never passes,
and any other state yields `None`. -/
def createMissionEmbed (missionId state : String) : Option Notification :=
  if state = "READY" then
    some (Notification.mission missionId (get_mission_level missionId) state)
  else if state = "IN_PROGRESS" then
    some (Notification.mission missionId (get_mission_level missionId) state)
  else if state = "COMPLETED" then
    some (Notification.mission missionId (get_mission_level missionId) state)
  else none

/-- The mission branch of the second pass: only `READY` missions of
level 3 or higher, and only on a non-cold scan. -/
def missionNotifsOfLine (cold : Bool) (line : String) : List Notification :=
  match matchMissionStateChange line with
  | some ms =>
    if !cold then
      if ms.2 = "READY" then
        if 3 ≤ get_mission_level ms.1 then
          match createMissionEmbed ms.1 ms.2 with
          | some n => [n]
          | none => []
        else []
      else []
    else []
  | none => []

/-- One line of the second pass of `parse_log_content`: mission, airdrop,
helicrash, trader branches in program order.  The vehicle branches are
elided: `create_vehicle_embed` always returns `None`, so they can never
contribute a notification. -/
def passBLine (cold : Bool) (line : String) : List Notification :=
  missionNotifsOfLine cold line
  ++ (if airdropFlying line && !cold then [Notification.airdrop] else [])
  ++ (if (helicrashEvent line || helicrashCrash line) && !cold then
        [Notification.helicrash] else [])
  ++ (if traderArrival line && !cold then [Notification.trader] else [])

/-! ### The incremental scanner `parse_log_content` -/

/-- Which lines a scan processes: everything on a cold start or a zero
cursor, the new tail when the source grew, and nothing (early return,
no state touch) otherwise. -/
def sliceDecision (coldStart : Bool) (lastProcessed : Nat) (lines : List String) :
    Option (List String) :=
  if coldStart = true ∨ lastProcessed = 0 then some lines
  else if lastProcessed < lines.length then some (lines.drop lastProcessed)
  else none

/-- Result of one `parse_log_content` call: the new in-memory state, the
returned notifications, the slice of lines that was processed, and
whether `_save_persistent_state` was invoked. -/
structure ParseResult where
  state : ParserState
  notifications : List Notification
  slice : List String
  saveAttempted : Bool
  voiceUpdated : Bool
  deriving Repr, DecidableEq

/-- Model of `UnifiedLogParser.parse_log_content`.  `saveOk` models whether the
database write inside `_save_persistent_state` succeeds; the Python
method catches every exception of that write, so the call returns
normally either way and only the persisted snapshot differs. -/
def parseLogContent (st : ParserState) (content : String) (guildId serverId : String)
    (coldStart : Bool) (serverName : String) (saveOk : Bool) : ParseResult :=
  if content = "" then
    { state := st, notifications := [], slice := [], saveAttempted := false,
      voiceUpdated := false }
  else
    let lines := splitlines content
    let serverKey := guildId ++ "_" ++ serverId
    let lastProcessed := ((mapGet st.fileStates serverKey).map (·.lineCount)).getD 0
    match sliceDecision coldStart lastProcessed lines with
    | none =>
      { state := st, notifications := [], slice := [], saveAttempted := false,
        voiceUpdated := false }
    | some linesToProcess =>
      let fileStates := mapSet st.fileStates serverKey
        { lineCount := lines.length, coldStartComplete := true }
      let persisted := if saveOk then some fileStates else st.persisted
      let col := collectPhase guildId st.playerLifecycle linesToProcess
      let sortedEvents := sortEvents col.events
      let app := sortedEvents.foldl (applyEvent coldStart guildId serverName col.lifecycle)
        { sessions := st.playerSessions, notifs := [], voiceUpdate := false }
      let notifsB := linesToProcess.foldl (fun acc line => acc ++ passBLine coldStart line) []
      { state :=
          { fileStates := fileStates, playerLifecycle := col.lifecycle,
            playerSessions := app.sessions, playerNameCache := st.playerNameCache,
            persisted := persisted },
        notifications := app.notifs ++ notifsB,
        slice := linesToProcess,
        saveAttempted := true,
        voiceUpdated := app.voiceUpdate }

/-- The cold-start decision of `parse_server_logs`: a source is cold
until a scan has recorded `cold_start_complete`. -/
def isColdStart (st : ParserState) (serverKey : String) : Bool :=
  !(((mapGet st.fileStates serverKey).map (·.coldStartComplete)).getD false)

/-- Repeated invocations of the scanner on successive snapshots of one
source, with the cold flag computed as `parse_server_logs` does; returns
the final state and the slice processed by each scan. -/
def runScans (st : ParserState) (guildId serverId serverName : String) :
    List String → ParserState × List (List String)
  | [] => (st, [])
  | t :: ts =>
    let cold := isColdStart st (guildId ++ "_" ++ serverId)
    let r := parseLogContent st t guildId serverId cold serverName true
    let rest := runScans r.state guildId serverId serverName ts
    (rest.1, r.slice :: rest.2)

/-! ### Occupancy counts (`update_voice_channel`, `get_active_player_count`) -/

def countOnlinePlayers (guildId : String) (sessions : List (String × SessionRec)) : Nat :=
  (sessions.filter (fun p => strStartsWith p.1 (guildId ++ "_") && p.2.status == "online")).length

def countQueuedPlayers (guildId : String) (lifecycle : List (String × LifecycleRec)) : Nat :=
  (lifecycle.filter (fun p => strStartsWith p.1 (guildId ++ "_") && p.2.state == "queued")).length

/-! ### Identity resolver (`resolve_player_name`)

The database-backed lookups (methods 2a–2e) are supplied as a
`ResolveDb` record holding the query results the Mongo calls would
return, in the recency order and with the result limits of the queries;
`resolve_player_name` itself only filters and selects from them.  The
fire-and-forget `_delayed_name_resolution` task runs outside the call
(after a 30 s sleep) and is not part of the call's value. -/

/-- One document of `kill_events` touching the player. -/
structure KillEvent where
  killerId : String
  victimId : String
  killer : String
  victim : String
  deriving Repr, DecidableEq

/-- Results of the persistent-store queries for one `(guild, player)`
pair.  Missing documents/fields are `none`/`""` (Python `None` and empty
strings are both falsy and are filtered identically). -/
structure ResolveDb where
  pvpExactName : Option String
  pvpPrefixNames : Nat → List String
  pvpRecentDocs : List (String × String)
  linkedName : Option String
  killDocs : List KillEvent

/-- The acceptance filter
`name and name.strip() and name != 'Unknown Player' and not name.startswith('Player_')`. -/
def acceptableStoreName (n : String) : Bool :=
  !(n = "") && !(strTrim n = "") && !(n = "Unknown Player") && !(strStartsWith n "Player_")

/-- The weaker filter used for linked players (method 2d):
no `Player_` check. -/
def linkedNameOk (n : String) : Bool :=
  !(n = "") && !(strTrim n = "") && !(n = "Unknown Player")

/-- Length of the common leading run of two identifiers
(the similarity loop of method 2c). -/
def commonLeadLen : List Char → List Char → Nat
  | a :: as, b :: bs => if a = b then commonLeadLen as bs + 1 else 0
  | _, _ => 0

/-- Method 2b: partial-identifier lookup for prefix lengths 12, 8, 6, 4. -/
def prefixLookupName (db : ResolveDb) (playerId : String) : Option String :=
  [12, 8, 6, 4].findSome? (fun len =>
    if len ≤ playerId.data.length then
      (db.pvpPrefixNames len).findSome? (fun n =>
        if acceptableStoreName n then some n else none)
    else none)

/-- Method 2c: recent-activity scan with common-prefix similarity ≥ 8. -/
def recentLookupName (db : ResolveDb) (playerId : String) : Option String :=
  db.pvpRecentDocs.findSome? (fun d =>
    if !(d.1 = "") && !(d.2 = "") && !(strStartsWith d.2 "Player_")
        && 8 ≤ commonLeadLen playerId.data d.1.data then some d.2
    else none)

/-- Method 2e: cross-reference with recent kill events. -/
def killLookupName (db : ResolveDb) (playerId : String) : Option String :=
  db.killDocs.findSome? (fun ev =>
    let n :=
      if ev.killerId = playerId then some ev.killer
      else if ev.victimId = playerId then some ev.victim
      else none
    match n with
    | some name => if acceptableStoreName name then some name else none
    | none => none)

/-- The database cascade 2a → 2b → 2c → 2d → 2e. -/
def dbLookupName (db : ResolveDb) (playerId : String) : Option String :=
  (match db.pvpExactName with
   | some n => if acceptableStoreName n then some n else none
   | none => none)
  <|> prefixLookupName db playerId
  <|> recentLookupName db playerId
  <|> (match db.linkedName with
       | some n => if linkedNameOk n then some n else none
       | none => none)
  <|> killLookupName db playerId

/-- Method 3: another online session in the same scope whose identifier
shares the first 8 characters. -/
def sessionLookupName (guildId playerId : String)
    (sessions : List (String × SessionRec)) : Option String :=
  sessions.findSome? (fun p =>
    if strStartsWith p.1 (guildId ++ "_") && p.2.status == "online" then
      if !(p.2.playerId = "") && !(p.2.playerName = "")
          && !(strStartsWith p.2.playerName "Player_")
          && 8 ≤ p.2.playerId.data.length && 8 ≤ playerId.data.length
          && strTake p.2.playerId 8 = strTake playerId 8 then
        some p.2.playerName
      else none
    else none)

/-- Model of `UnifiedLogParser.resolve_player_name`: returns the resolved display
name together with the updated name cache.  `db = none` models an
unavailable `db_manager` (methods 2a–2e skipped). -/
def resolvePlayerName (cache : List (String × String))
    (lifecycle : List (String × LifecycleRec)) (sessions : List (String × SessionRec))
    (db : Option ResolveDb) (playerId guildId : String) :
    String × List (String × String) :=
  let cacheKey := guildId ++ "_" ++ playerId
  let cacheHit :=
    match mapGet cache cacheKey with
    | some cached =>
      if !(strStartsWith cached "Player_") && !(cached = "Unknown Player") then some cached
      else none
    | none => none
  match cacheHit with
  | some n => (n, cache)
  | none =>
    let fromLifecycle :=
      match mapGet lifecycle (guildId ++ "_" ++ playerId) with
      | some r =>
        if !(r.name = "") && !(strTrim r.name = "") && !(r.name = "Unknown Player") then
          let clean := cleanLifecycleName r.name
          if !(clean = "") && 2 ≤ clean.data.length && !(clean = "Unknown Player") then
            some clean
          else none
        else none
      | none => none
    match fromLifecycle with
    | some n => (n, mapSet cache cacheKey n)
    | none =>
      match db.bind (fun d => dbLookupName d playerId) with
      | some n => (n, mapSet cache cacheKey n)
      | none =>
        match sessionLookupName guildId playerId sessions with
        | some n => (n, mapSet cache cacheKey n)
        | none =>
          if 8 ≤ playerId.data.length then
            let tempName :=
              "Player" ++ strUpper (strTake playerId 4) ++ strUpper (strTakeRight playerId 4)
            (tempName, mapSet cache cacheKey tempName)
          else
            ("UnknownPlayer", cache)

/-! ### Properties of the stable timestamp sort -/

theorem keyLeL_refl (as : List Char) : keyLeL as as = true := by
  induction as with
  | nil => rfl
  | cons a as ih =>
    rw [keyLeL, if_neg (by omega), if_neg (by omega)]
    exact ih

theorem keyLeL_total (as : List Char) : ∀ bs, keyLeL as bs = true ∨ keyLeL bs as = true := by
  induction as with
  | nil => intro bs; left; rfl
  | cons a as ih =>
    intro bs
    cases bs with
    | nil => right; rfl
    | cons b bs =>
      rw [keyLeL, keyLeL]
      rcases Nat.lt_trichotomy a.toNat b.toNat with h | h | h
      · left; rw [if_pos h]
      · rcases ih bs with h' | h'
        · left; rw [if_neg (by omega), if_neg (by omega)]; exact h'
        · right; rw [if_neg (by omega), if_neg (by omega)]; exact h'
      · right; rw [if_pos h]

theorem keyLeL_trans (as : List Char) :
    ∀ bs cs, keyLeL as bs = true → keyLeL bs cs = true → keyLeL as cs = true := by
  induction as with
  | nil => intro bs cs _ _; rfl
  | cons a as ih =>
    intro bs cs h1 h2
    cases bs with
    | nil => simp [keyLeL] at h1
    | cons b bs =>
      cases cs with
      | nil => simp [keyLeL] at h2
      | cons c cs =>
        rw [keyLeL] at h1 h2 ⊢
        rcases Nat.lt_trichotomy a.toNat b.toNat with hab | hab | hab
        · rcases Nat.lt_trichotomy b.toNat c.toNat with hbc | hbc | hbc
          · rw [if_pos (by omega)]
          · rw [if_pos (by omega)]
          · rw [if_neg (by omega), if_pos (by omega)] at h2
            exact absurd h2 (by simp)
        · rw [if_neg (by omega), if_neg (by omega)] at h1
          rcases Nat.lt_trichotomy b.toNat c.toNat with hbc | hbc | hbc
          · rw [if_pos (by omega)]
          · rw [if_neg (by omega), if_neg (by omega)] at h2
            rw [if_neg (by omega), if_neg (by omega)]
            exact ih bs cs h1 h2
          · rw [if_neg (by omega), if_pos (by omega)] at h2
            exact absurd h2 (by simp)
        · rw [if_neg (by omega), if_pos (by omega)] at h1
          exact absurd h1 (by simp)

theorem keyLe_refl (s : String) : keyLe s s = true := keyLeL_refl s.data

theorem keyLe_total (a b : String) : keyLe a b = true ∨ keyLe b a = true :=
  keyLeL_total a.data b.data

theorem keyLe_trans {a b c : String} (h1 : keyLe a b = true) (h2 : keyLe b c = true) :
    keyLe a c = true :=
  keyLeL_trans a.data b.data c.data h1 h2

theorem insertEvent_perm (e : PlayerEvent) (l : List PlayerEvent) :
    (insertEvent e l).Perm (e :: l) := by
  induction l with
  | nil => exact List.Perm.refl _
  | cons x xs ih =>
    rw [insertEvent]
    by_cases h : keyLe (eventKey x) (eventKey e) = true
    · rw [if_pos h]
      exact (ih.cons x).trans (List.Perm.swap e x xs)
    · rw [if_neg h]

theorem insertEvent_sorted (e : PlayerEvent) (l : List PlayerEvent)
    (hl : l.Pairwise (fun a b => keyLe (eventKey a) (eventKey b) = true)) :
    (insertEvent e l).Pairwise (fun a b => keyLe (eventKey a) (eventKey b) = true) := by
  induction l with
  | nil => simp [insertEvent]
  | cons x xs ih =>
    rw [List.pairwise_cons] at hl
    rw [insertEvent]
    by_cases h : keyLe (eventKey x) (eventKey e) = true
    · rw [if_pos h]
      refine List.pairwise_cons.mpr ⟨?_, ih hl.2⟩
      intro y hy
      rcases List.mem_cons.mp ((insertEvent_perm e xs).mem_iff.mp hy) with rfl | hy'
      · exact h
      · exact hl.1 y hy'
    · rw [if_neg h]
      have hex : keyLe (eventKey e) (eventKey x) = true :=
        (keyLe_total (eventKey e) (eventKey x)).resolve_right h
      refine List.pairwise_cons.mpr ⟨?_, List.pairwise_cons.mpr hl⟩
      intro y hy
      rcases List.mem_cons.mp hy with rfl | hy'
      · exact hex
      · exact keyLe_trans hex (hl.1 y hy')

theorem insertEvent_filter_ne (e : PlayerEvent) (l : List PlayerEvent) (k : String)
    (he : ¬eventKey e = k) :
    (insertEvent e l).filter (fun x => eventKey x == k) =
      l.filter (fun x => eventKey x == k) := by
  induction l with
  | nil => simp [insertEvent, he]
  | cons x xs ih =>
    rw [insertEvent]
    by_cases h : keyLe (eventKey x) (eventKey e) = true
    · rw [if_pos h]
      rw [List.filter_cons, List.filter_cons]
      cases hx : (eventKey x == k) <;> simp [ih]
    · rw [if_neg h]
      rw [List.filter_cons]
      simp [he]

theorem insertEvent_filter_eq (e : PlayerEvent) (l : List PlayerEvent) (k : String)
    (he : eventKey e = k)
    (hl : l.Pairwise (fun a b => keyLe (eventKey a) (eventKey b) = true)) :
    (insertEvent e l).filter (fun x => eventKey x == k) =
      l.filter (fun x => eventKey x == k) ++ [e] := by
  induction l with
  | nil => simp [insertEvent, he]
  | cons x xs ih =>
    rw [List.pairwise_cons] at hl
    rw [insertEvent]
    by_cases h : keyLe (eventKey x) (eventKey e) = true
    · rw [if_pos h]
      rw [List.filter_cons, List.filter_cons]
      cases hx : (eventKey x == k) <;> simp [ih hl.2]
    · rw [if_neg h]
      have hnone : ∀ y ∈ x :: xs, ¬(eventKey y == k) = true := by
        intro y hy hyk
        have hyk' : eventKey y = eventKey e := by
          rw [he]; exact of_decide_eq_true hyk
        rcases List.mem_cons.mp hy with rfl | hy'
        · exact h (hyk' ▸ keyLe_refl (eventKey y))
        · exact h (hyk' ▸ hl.1 y hy')
      rw [List.filter_cons]
      simp only [he, beq_self_eq_true, if_pos, List.filter_eq_nil_iff.mpr hnone]
      simp [List.filter_eq_nil_iff.mpr hnone]

theorem sortAux_perm (es : List PlayerEvent) :
    ∀ acc, (sortAux acc es).Perm (acc ++ es) := by
  induction es with
  | nil => intro acc; simp [sortAux]
  | cons e es ih =>
    intro acc
    rw [sortAux]
    refine (ih (insertEvent e acc)).trans ?_
    refine (((insertEvent_perm e acc).append_right es)).trans ?_
    exact (List.perm_middle).symm

theorem sortAux_sorted (es : List PlayerEvent) :
    ∀ acc, acc.Pairwise (fun a b => keyLe (eventKey a) (eventKey b) = true) →
      (sortAux acc es).Pairwise (fun a b => keyLe (eventKey a) (eventKey b) = true) := by
  induction es with
  | nil => intro acc hacc; simpa [sortAux] using hacc
  | cons e es ih =>
    intro acc hacc
    rw [sortAux]
    exact ih _ (insertEvent_sorted e acc hacc)

theorem sortAux_filter (es : List PlayerEvent) (k : String) :
    ∀ acc, acc.Pairwise (fun a b => keyLe (eventKey a) (eventKey b) = true) →
      (sortAux acc es).filter (fun x => eventKey x == k) =
        acc.filter (fun x => eventKey x == k) ++ es.filter (fun x => eventKey x == k) := by
  induction es with
  | nil => intro acc _; simp [sortAux]
  | cons e es ih =>
    intro acc hacc
    rw [sortAux, ih _ (insertEvent_sorted e acc hacc)]
    by_cases he : eventKey e = k
    · rw [insertEvent_filter_eq e acc k he hacc, List.filter_cons]
      simp [he]
    · rw [insertEvent_filter_ne e acc k he, List.filter_cons]
      simp [he]

theorem sortEvents_perm (evs : List PlayerEvent) : (sortEvents evs).Perm evs := by
  simpa using sortAux_perm evs []

theorem sortEvents_sorted (evs : List PlayerEvent) :
    (sortEvents evs).Pairwise (fun a b => keyLe (eventKey a) (eventKey b) = true) :=
  sortAux_sorted evs [] (by simp)

theorem sortEvents_filter (evs : List PlayerEvent) (k : String) :
    (sortEvents evs).filter (fun x => eventKey x == k) =
      evs.filter (fun x => eventKey x == k) := by
  simpa using sortAux_filter evs k [] (by simp)

/-! ### Helper lemmas about one scan -/

/-- The canonical initial parser state (empty dictionaries, nothing
persisted yet). -/
def freshState : ParserState :=
  { fileStates := [], playerLifecycle := [], playerSessions := [], playerNameCache := [],
    persisted := none }

/-- Explicit form of a scan that processes a slice. -/
theorem parseLogContent_of_slice (st : ParserState)
    (content guildId serverId serverName : String) (cold saveOk : Bool)
    (ltp : List String) (hne : ¬content = "")
    (hsd : sliceDecision cold
      (((mapGet st.fileStates (guildId ++ "_" ++ serverId)).map (·.lineCount)).getD 0)
      (splitlines content) = some ltp) :
    parseLogContent st content guildId serverId cold serverName saveOk =
      { state :=
          { fileStates := mapSet st.fileStates (guildId ++ "_" ++ serverId)
              { lineCount := (splitlines content).length, coldStartComplete := true },
            playerLifecycle := (collectPhase guildId st.playerLifecycle ltp).lifecycle,
            playerSessions :=
              ((sortEvents (collectPhase guildId st.playerLifecycle ltp).events).foldl
                (applyEvent cold guildId serverName
                  (collectPhase guildId st.playerLifecycle ltp).lifecycle)
                { sessions := st.playerSessions, notifs := [], voiceUpdate := false }).sessions,
            playerNameCache := st.playerNameCache,
            persisted :=
              if saveOk then
                some (mapSet st.fileStates (guildId ++ "_" ++ serverId)
                  { lineCount := (splitlines content).length, coldStartComplete := true })
              else st.persisted },
        notifications :=
          ((sortEvents (collectPhase guildId st.playerLifecycle ltp).events).foldl
            (applyEvent cold guildId serverName
              (collectPhase guildId st.playerLifecycle ltp).lifecycle)
            { sessions := st.playerSessions, notifs := [], voiceUpdate := false }).notifs ++
          ltp.foldl (fun acc line => acc ++ passBLine cold line) [],
        slice := ltp,
        saveAttempted := true,
        voiceUpdated :=
          ((sortEvents (collectPhase guildId st.playerLifecycle ltp).events).foldl
            (applyEvent cold guildId serverName
              (collectPhase guildId st.playerLifecycle ltp).lifecycle)
            { sessions := st.playerSessions, notifs := [], voiceUpdate := false }).voiceUpdate } := by
  rw [parseLogContent, if_neg hne]
  simp only [hsd]

/-- Explicit form of a scan that processes nothing (no growth). -/
theorem parseLogContent_of_noop (st : ParserState)
    (content guildId serverId serverName : String) (cold saveOk : Bool)
    (hsd : content = "" ∨ sliceDecision cold
      (((mapGet st.fileStates (guildId ++ "_" ++ serverId)).map (·.lineCount)).getD 0)
      (splitlines content) = none) :
    parseLogContent st content guildId serverId cold serverName saveOk =
      { state := st, notifications := [], slice := [], saveAttempted := false,
        voiceUpdated := false } := by
  rcases hsd with hc | hsd
  · rw [parseLogContent, if_pos hc]
  · by_cases hc : content = ""
    · rw [parseLogContent, if_pos hc]
    · rw [parseLogContent, if_neg hc]
      simp only [hsd]

/-- The session table never depends on the cold flag nor on the
notification accumulator. -/
theorem applyEvent_sessions_congr (c1 c2 : Bool) (g n : String)
    (lc : List (String × LifecycleRec)) (a1 a2 : ApplyAcc) (e : PlayerEvent)
    (h : a1.sessions = a2.sessions) :
    (applyEvent c1 g n lc a1 e).sessions = (applyEvent c2 g n lc a2 e).sessions := by
  rw [applyEvent, applyEvent]
  by_cases hj : e.type = "join"
  · rw [if_pos hj, if_pos hj]
    simp [h]
  · rw [if_neg hj, if_neg hj]
    by_cases hd : e.type = "disconnect"
    · rw [if_pos hd, if_pos hd]
      simp [h]
    · rw [if_neg hd, if_neg hd]
      exact h

theorem foldApply_sessions_congr (c1 c2 : Bool) (g n : String)
    (lc : List (String × LifecycleRec)) (evs : List PlayerEvent) :
    ∀ (a1 a2 : ApplyAcc), a1.sessions = a2.sessions →
      ((evs.foldl (applyEvent c1 g n lc) a1)).sessions =
        ((evs.foldl (applyEvent c2 g n lc) a2)).sessions := by
  induction evs with
  | nil => intro a1 a2 h; exact h
  | cons e evs ih =>
    intro a1 a2 h
    exact ih _ _ (applyEvent_sessions_congr c1 c2 g n lc a1 a2 e h)

/-- On a cold scan, applying events emits no notification. -/
theorem applyEvent_cold_notifs (g n : String) (lc : List (String × LifecycleRec))
    (a : ApplyAcc) (e : PlayerEvent) :
    (applyEvent true g n lc a e).notifs = a.notifs := by
  rw [applyEvent]
  by_cases hj : e.type = "join"
  · rw [if_pos hj]; simp
  · rw [if_neg hj]
    by_cases hd : e.type = "disconnect"
    · rw [if_pos hd]; simp
    · rw [if_neg hd]

theorem foldApply_cold_notifs (g n : String) (lc : List (String × LifecycleRec))
    (evs : List PlayerEvent) :
    ∀ (a : ApplyAcc), ((evs.foldl (applyEvent true g n lc) a)).notifs = a.notifs := by
  induction evs with
  | nil => intro a; rfl
  | cons e evs ih =>
    intro a
    rw [List.foldl_cons, ih, applyEvent_cold_notifs]

/-- On a cold scan, the second pass emits no notification either. -/
theorem passBLine_cold (line : String) : passBLine true line = [] := by
  rw [passBLine, missionNotifsOfLine]
  cases matchMissionStateChange line <;> simp

theorem foldPassB_cold (lines : List String) :
    ∀ acc, lines.foldl (fun acc line => acc ++ passBLine true line) acc = acc := by
  induction lines with
  | nil => intro acc; rfl
  | cons l lines ih =>
    intro acc
    rw [List.foldl_cons, passBLine_cold, List.append_nil, ih]

/-! ### Cursor behaviour across repeated scans -/

/-- One non-cold scan of a source whose cursor is `prevLen ≤` the current
line count: the processed slice is exactly the tail after the cursor,
and the stored cursor becomes the current line count. -/
theorem parse_hot_scan (st : ParserState) (t guildId serverId serverName : String)
    (saveOk : Bool) (prevLen : Nat)
    (hfs : mapGet st.fileStates (guildId ++ "_" ++ serverId) =
      some { lineCount := prevLen, coldStartComplete := true })
    (hne : ¬t = "") (hle : prevLen ≤ (splitlines t).length) :
    (parseLogContent st t guildId serverId false serverName saveOk).slice =
      (splitlines t).drop prevLen ∧
    mapGet (parseLogContent st t guildId serverId false serverName saveOk).state.fileStates
      (guildId ++ "_" ++ serverId) =
      some { lineCount := (splitlines t).length, coldStartComplete := true } := by
  have hlp : ((mapGet st.fileStates (guildId ++ "_" ++ serverId)).map (·.lineCount)).getD 0 =
      prevLen := by rw [hfs]; rfl
  by_cases h0 : prevLen = 0
  · have hsd : sliceDecision false prevLen (splitlines t) = some (splitlines t) := by
      rw [sliceDecision, if_pos (Or.inr h0)]
    rw [parseLogContent_of_slice st t guildId serverId serverName false saveOk (splitlines t)
      hne (by rw [hlp]; exact hsd)]
    exact ⟨by simp [h0], mapGet_mapSet_self _ _ _⟩
  · by_cases hlt : prevLen < (splitlines t).length
    · have hsd : sliceDecision false prevLen (splitlines t) =
          some ((splitlines t).drop prevLen) := by
        rw [sliceDecision, if_neg (by simp [h0]), if_pos hlt]
      rw [parseLogContent_of_slice st t guildId serverId serverName false saveOk
        ((splitlines t).drop prevLen) hne (by rw [hlp]; exact hsd)]
      exact ⟨rfl, mapGet_mapSet_self _ _ _⟩
    · have heq : prevLen = (splitlines t).length := le_antisymm hle (le_of_not_lt hlt)
      have hsd : sliceDecision false prevLen (splitlines t) = none := by
        rw [sliceDecision, if_neg (by simp [h0]), if_neg hlt]
      rw [parseLogContent_of_noop st t guildId serverId serverName false saveOk
        (Or.inr (by rw [hlp]; exact hsd))]
      refine ⟨?_, ?_⟩
      · rw [heq, List.drop_length]
      · rw [← heq]; exact hfs

/-- Master induction: starting from a recorded cursor `prev.length`, the
slices of the remaining scans concatenate to exactly the part of the
final line list after the cursor. -/
theorem runScans_drop (guildId serverId serverName : String) :
    ∀ (texts : List String) (st : ParserState) (prev : List String),
      mapGet st.fileStates (guildId ++ "_" ++ serverId) =
        some { lineCount := prev.length, coldStartComplete := true } →
      (∀ t ∈ texts, t ≠ "") →
      List.Chain' (fun a b => splitlines a <+: splitlines b) texts →
      (∀ u ∈ texts.head?, prev <+: splitlines u) →
      ∀ tN, texts.getLast? = some tN →
        (runScans st guildId serverId serverName texts).2.flatten =
          (splitlines tN).drop prev.length ∧ prev <+: splitlines tN := by
  intro texts
  induction texts with
  | nil => intro st prev _ _ _ _ tN h; simp at h
  | cons t ts ih =>
    intro st prev hfs hne hchain hpre tN hlast
    have hnet : ¬t = "" := hne t (List.mem_cons_self t ts)
    have hpret : prev <+: splitlines t := hpre t rfl
    have hcold : isColdStart st (guildId ++ "_" ++ serverId) = false := by
      rw [isColdStart, hfs]; rfl
    have hscan := parse_hot_scan st t guildId serverId serverName true prev.length hfs hnet
      hpret.length_le
    rw [runScans]
    rw [hcold]
    cases ts with
    | nil =>
      have htn : tN = t := by simpa using hlast.symm
      subst htn
      rw [runScans]
      refine ⟨?_, hpret⟩
      simpa using hscan.1
    | cons u ts' =>
      have hlast' : (u :: ts').getLast? = some tN := by
        rwa [List.getLast?_cons_cons] at hlast
      have hcc := List.chain'_cons.mp hchain
      have ihres := ih (parseLogContent st t guildId serverId false serverName true).state
        (splitlines t) hscan.2 (fun x hx => hne x (List.mem_cons_of_mem _ hx)) hcc.2
        (fun u' hu' => by
          simp only [List.head?_cons, Option.mem_def, Option.some.injEq] at hu'
          rw [← hu']; exact hcc.1)
        tN hlast'
      refine ⟨?_, hpret.trans ihres.2⟩
      obtain ⟨s, hs⟩ := ihres.2
      rw [List.flatten_cons, hscan.1, ihres.1, ← hs]
      rw [List.drop_left, List.drop_append_of_le_length hpret.length_le]

/-! ### Claim C1 -/

/-- C1 (counterexample): the claim fails as stated.  Growing the text
`"a"` to `"ab"` is a proper extension, yet the grown final line `"ab"`
is contained in no scan's processed slice: the first scan processed
`"a"`, and the second scan sees an unchanged line count and processes
nothing, so the union of slices is `["a"] ≠ ["ab"]` and the line `"ab"`
is skipped. -/
theorem c1_counterexample_boundary_growth :
    strStartsWith "ab" "a" = true ∧ ¬("a" = "ab") ∧
    (runScans freshState "7" "1" "Srv" ["a", "ab"]).2.flatten ≠ splitlines "ab" ∧
    "ab" ∈ splitlines "ab" ∧
    (∀ sl ∈ (runScans freshState "7" "1" "Srv" ["a", "ab"]).2, "ab" ∉ sl) := by
  decide

/-- C1 (amended): if every successive text extends the previous one by
whole lines — its line list is an extension of the previous line list,
as happens whenever each captured snapshot ends in a newline — then the
processed slices of the successive scans concatenate, in order, to
exactly the final line list: every line position of the final text is
processed in exactly one scan's slice, regardless of how the growth is
chunked across calls. -/
theorem c1_amended_exactly_once_coverage (guildId serverId serverName : String)
    (t0 : String) (rest : List String) (tN : String)
    (hne : ∀ t ∈ t0 :: rest, t ≠ "")
    (hchain : List.Chain' (fun a b => splitlines a <+: splitlines b) (t0 :: rest))
    (hlast : (t0 :: rest).getLast? = some tN) :
    (runScans freshState guildId serverId serverName (t0 :: rest)).2.flatten =
      splitlines tN := by
  have hnet : ¬t0 = "" := hne t0 (List.mem_cons_self t0 rest)
  have hcold : isColdStart freshState (guildId ++ "_" ++ serverId) = true := rfl
  have hsd : sliceDecision true
      (((mapGet freshState.fileStates (guildId ++ "_" ++ serverId)).map (·.lineCount)).getD 0)
      (splitlines t0) = some (splitlines t0) := by
    rw [sliceDecision, if_pos (Or.inl rfl)]
  have hparse := parseLogContent_of_slice freshState t0 guildId serverId serverName true true
    (splitlines t0) hnet hsd
  have hslice : (parseLogContent freshState t0 guildId serverId true serverName true).slice =
      splitlines t0 := by rw [hparse]
  have hfs' : mapGet
      (parseLogContent freshState t0 guildId serverId true serverName true).state.fileStates
      (guildId ++ "_" ++ serverId) =
      some { lineCount := (splitlines t0).length, coldStartComplete := true } := by
    rw [hparse]
    exact mapGet_mapSet_self _ _ _
  simp only [runScans]
  rw [hcold]
  cases rest with
  | nil =>
    have htn : tN = t0 := by simpa using hlast.symm
    subst htn
    rw [runScans]
    simpa using hslice
  | cons u ts' =>
    have hlast' : (u :: ts').getLast? = some tN := by
      rwa [List.getLast?_cons_cons] at hlast
    have hcc := List.chain'_cons.mp hchain
    have hd := runScans_drop guildId serverId serverName (u :: ts')
      (parseLogContent freshState t0 guildId serverId true serverName true).state
      (splitlines t0) hfs'
      (fun x hx => hne x (List.mem_cons_of_mem _ hx)) hcc.2
      (fun u' hu' => by
        simp only [List.head?_cons, Option.mem_def, Option.some.injEq] at hu'
        rw [← hu']; exact hcc.1)
      tN hlast'
    obtain ⟨s, hs⟩ := hd.2
    rw [List.flatten_cons, hslice, hd.1, ← hs, List.drop_left]

/-- C1 (amended, witness): two scans of `"a\n"` then `"a\nb"` cover
`["a", "b"]` exactly once. -/
theorem c1_amended_exactly_once_coverage_witness :
    (runScans freshState "7" "1" "Srv" ["a\n", "a\nb"]).2.flatten = splitlines "a\nb" := by
  refine c1_amended_exactly_once_coverage "7" "1" "Srv" "a\n" ["a\nb"] "a\nb" ?_ ?_ (by decide)
  · intro t ht
    rcases List.mem_cons.mp ht with rfl | ht'
    · decide
    · rcases List.mem_singleton.mp ht' with rfl
      decide
  · exact List.chain'_cons.mpr ⟨⟨["b"], by decide⟩, by simp⟩

/-! ### Claim C2 -/

/-- C2: calling the scan again with identical full text on a non-cold
source whose cursor already equals the line count returns zero
notifications, leaves the entire in-memory state (cursor, lifecycle,
sessions) unchanged, and does not invoke the persistence write at all. -/
theorem c2_idempotent_noop (st : ParserState) (content guildId serverId serverName : String)
    (saveOk : Bool) (fs : FileState)
    (hfs : mapGet st.fileStates (guildId ++ "_" ++ serverId) = some fs)
    (hcount : fs.lineCount = (splitlines content).length)
    (hpos : 0 < fs.lineCount) :
    parseLogContent st content guildId serverId false serverName saveOk =
      { state := st, notifications := [], slice := [], saveAttempted := false,
        voiceUpdated := false } := by
  apply parseLogContent_of_noop
  by_cases hc : content = ""
  · exact Or.inl hc
  · refine Or.inr ?_
    rw [hfs]
    show sliceDecision false fs.lineCount (splitlines content) = none
    rw [sliceDecision, if_neg (not_or.mpr ⟨by simp, by omega⟩), if_neg (by omega)]

/-- C2 (witness): a concrete already-caught-up source. -/
theorem c2_idempotent_noop_witness :
    parseLogContent
      { fileStates := [("7_1", { lineCount := 1, coldStartComplete := true })],
        playerLifecycle := [], playerSessions := [], playerNameCache := [], persisted := none }
      "x" "7" "1" false "Srv" true =
      { state :=
          { fileStates := [("7_1", { lineCount := 1, coldStartComplete := true })],
            playerLifecycle := [], playerSessions := [], playerNameCache := [],
            persisted := none },
        notifications := [], slice := [], saveAttempted := false, voiceUpdated := false } :=
  c2_idempotent_noop _ "x" "7" "1" "Srv" true
    { lineCount := 1, coldStartComplete := true } (by decide) (by decide) (by decide)

/-! ### Claim C3 -/

/-- C3: the first-ever scan of a source (no recorded cursor state) run
cold returns zero notifications of any kind, while producing exactly the
same lifecycle and session state as the equivalent live (non-cold) run
over the same lines, and records the full line count with the completion
flag set, so that the next scan of the source is hot. -/
theorem c3_cold_start_suppression (st : ParserState)
    (content guildId serverId serverName : String) (saveOk saveOk' : Bool)
    (hfresh : mapGet st.fileStates (guildId ++ "_" ++ serverId) = none)
    (hne : ¬content = "") :
    (parseLogContent st content guildId serverId true serverName saveOk).notifications = [] ∧
    (parseLogContent st content guildId serverId true serverName saveOk).state.playerLifecycle =
      (parseLogContent st content guildId serverId false serverName saveOk').state.playerLifecycle ∧
    (parseLogContent st content guildId serverId true serverName saveOk).state.playerSessions =
      (parseLogContent st content guildId serverId false serverName saveOk').state.playerSessions ∧
    mapGet (parseLogContent st content guildId serverId true serverName saveOk).state.fileStates
      (guildId ++ "_" ++ serverId) =
      some { lineCount := (splitlines content).length, coldStartComplete := true } ∧
    isColdStart (parseLogContent st content guildId serverId true serverName saveOk).state
      (guildId ++ "_" ++ serverId) = false ∧
    (parseLogContent st content guildId serverId true serverName saveOk).slice =
      splitlines content := by
  have hgd : ((mapGet st.fileStates (guildId ++ "_" ++ serverId)).map (·.lineCount)).getD 0 = 0 := by
    rw [hfresh]; rfl
  rw [parseLogContent_of_slice st content guildId serverId serverName true saveOk
      (splitlines content) hne (by rw [hgd, sliceDecision, if_pos (Or.inl rfl)]),
    parseLogContent_of_slice st content guildId serverId serverName false saveOk'
      (splitlines content) hne (by rw [hgd, sliceDecision, if_pos (Or.inr rfl)])]
  refine ⟨?_, rfl, ?_, ?_, ?_, rfl⟩
  · rw [foldApply_cold_notifs, foldPassB_cold]; rfl
  · exact foldApply_sessions_congr true false guildId serverName _ _ _ _ rfl
  · exact mapGet_mapSet_self _ _ _
  · rw [isColdStart, mapGet_mapSet_self]; rfl

/-- C3 (witness): cold scan of a concrete two-line source. -/
theorem c3_cold_start_suppression_witness :
    (parseLogContent freshState "x\ny" "7" "1" true "Srv" true).notifications = [] ∧
    (parseLogContent freshState "x\ny" "7" "1" true "Srv" true).state.playerLifecycle =
      (parseLogContent freshState "x\ny" "7" "1" false "Srv" false).state.playerLifecycle ∧
    (parseLogContent freshState "x\ny" "7" "1" true "Srv" true).state.playerSessions =
      (parseLogContent freshState "x\ny" "7" "1" false "Srv" false).state.playerSessions ∧
    mapGet (parseLogContent freshState "x\ny" "7" "1" true "Srv" true).state.fileStates "7_1" =
      some { lineCount := (splitlines "x\ny").length, coldStartComplete := true } ∧
    isColdStart (parseLogContent freshState "x\ny" "7" "1" true "Srv" true).state "7_1" = false ∧
    (parseLogContent freshState "x\ny" "7" "1" true "Srv" true).slice = splitlines "x\ny" :=
  c3_cold_start_suppression freshState "x\ny" "7" "1" "Srv" true false (by decide) (by decide)

/-! ### Claim C4 -/

/-- C4: the identity events applied by a scan are processed in the order
`sortEvents` of the collected events (`parseLogContent` folds
`applyEvent` over exactly that list), and `sortEvents` (i) is a
permutation of the collected events — no event dropped or duplicated,
(ii) is ascending in the timestamp key, (iii) is stable — for every key
value, the events carrying it keep their original relative order, and
(iv) maps a missing timestamp to the empty-string key, which sorts
before every other key. -/
theorem c4_chronological_ordering (evs : List PlayerEvent) :
    (sortEvents evs).Perm evs ∧
    (sortEvents evs).Pairwise (fun a b => keyLe (eventKey a) (eventKey b) = true) ∧
    (∀ k : String, (sortEvents evs).filter (fun x => eventKey x == k) =
      evs.filter (fun x => eventKey x == k)) ∧
    (∀ e : PlayerEvent, e.timestamp = none →
      eventKey e = "" ∧ ∀ e' : PlayerEvent, keyLe (eventKey e) (eventKey e') = true) := by
  refine ⟨sortEvents_perm evs, sortEvents_sorted evs, sortEvents_filter evs, ?_⟩
  intro e he
  have hk : eventKey e = "" := by rw [eventKey, he]; rfl
  refine ⟨hk, fun e' => ?_⟩
  rw [hk]
  rfl

/-- C4 (witness): a timestampless event sorts with the empty key, before
a timestamped one. -/
theorem c4_chronological_ordering_witness :
    eventKey { type := "join", playerId := "aa", timestamp := none, line := "l1" } = "" ∧
    keyLe (eventKey { type := "join", playerId := "aa", timestamp := none, line := "l1" })
      (eventKey { type := "disconnect", playerId := "bb",
                  timestamp := some "2025.05.30-12.20.20:000", line := "l2" }) = true := by
  have h := (c4_chronological_ordering []).2.2.2
    { type := "join", playerId := "aa", timestamp := none, line := "l1" } rfl
  exact ⟨h.1, h.2 _⟩

/-! ### Claim C5 -/

/-- C5 (counterexample): lifecycle states do not only move forward
through queued → joined → disconnected.  A connect-intent line for an
identifier whose record is currently `joined` unconditionally resets the
record to `queued` — a backward joined → queued transition with no
disconnect in between. -/
theorem c5_counterexample_joined_to_queued :
    (mapGet
      ({ fileStates := [], playerNameCache := [], persisted := none,
         playerLifecycle := [("7_aa11", { name := "Foo", platform := "PS5",
                                          state := "joined" })],
         playerSessions := [] } : ParserState).playerLifecycle "7_aa11").map
      LifecycleRec.state = some "joined" ∧
    (mapGet (parseLogContent
      { fileStates := [], playerNameCache := [], persisted := none,
        playerLifecycle := [("7_aa11", { name := "Foo", platform := "PS5",
                                         state := "joined" })],
        playerSessions := [] }
      "LogNet: Join request: /Game/Maps/world_0/World_0?eosid=|aa11&Name=Foo"
      "7" "1" false "Srv" true).state.playerLifecycle "7_aa11").map
      LifecycleRec.state = some "queued" := by
  decide

/-- C5 (amended): a disconnect event is applied only when the current
state is joined — a disconnect line for an identifier that is unknown,
queued, or already disconnected produces no notification and leaves the
lifecycle and session maps untouched.  (States are not confined to the
forward path queued → joined → disconnected: a connect-intent resets the
record to queued even from joined, per the counterexample; a
connect-confirm moves any record to joined, and disconnected is entered
only from joined.) -/
theorem c5_amended_dangling_disconnect (st : ParserState)
    (line guildId serverId serverName playerId : String) (saveOk : Bool)
    (hq : matchQueueJoin line = none) (hr : matchRegistered line = none)
    (hd : matchDisconnect line = some playerId)
    (hstate : ¬(((mapGet st.playerLifecycle (guildId ++ "_" ++ playerId)).map
      LifecycleRec.state).getD "") = "joined")
    (hsplit : splitlines line = [line])
    (hfresh : mapGet st.fileStates (guildId ++ "_" ++ serverId) = none)
    (hm : matchMissionStateChange line = none)
    (ha : airdropFlying line = false) (hh1 : helicrashEvent line = false)
    (hh2 : helicrashCrash line = false) (ht : traderArrival line = false) :
    (parseLogContent st line guildId serverId false serverName saveOk).notifications = [] ∧
    (parseLogContent st line guildId serverId false serverName saveOk).state.playerLifecycle =
      st.playerLifecycle ∧
    (parseLogContent st line guildId serverId false serverName saveOk).state.playerSessions =
      st.playerSessions := by
  have hne : ¬line = "" := by
    intro h
    rw [h] at hd
    exact Option.noConfusion hd
  have hgd : ((mapGet st.fileStates (guildId ++ "_" ++ serverId)).map (·.lineCount)).getD 0 = 0 := by
    rw [hfresh]; rfl
  rw [parseLogContent_of_slice st line guildId serverId serverName false saveOk
    (splitlines line) hne (by rw [hgd, sliceDecision, if_pos (Or.inr rfl)])]
  rw [hsplit]
  have hcol : collectPhase guildId st.playerLifecycle [line] =
      { lifecycle := st.playerLifecycle, events := [] } := by
    rw [collectPhase, List.foldl_cons, List.foldl_nil, collectLine]
    simp only [hq, hr, hd]
    cases hrec : mapGet st.playerLifecycle (guildId ++ "_" ++ playerId) with
    | none => rfl
    | some r =>
      have hns : ¬r.state = "joined" := by
        rw [hrec] at hstate
        simpa using hstate
      simp [hns]
  rw [hcol]
  refine ⟨?_, rfl, rfl⟩
  simp [sortEvents, sortAux, passBLine, missionNotifsOfLine, hm, ha, hh1, hh2, ht]

/-- C5 (amended, witness): a concrete disconnect line for a queued
player changes nothing. -/
theorem c5_amended_dangling_disconnect_witness :
    (parseLogContent
      { fileStates := [], playerNameCache := [], persisted := none,
        playerLifecycle := [("7_aa11", { name := "Foo", platform := "PS5",
                                         state := "queued" })],
        playerSessions := [] }
      "LogNet: UChannel::Close: Sending CloseBunch UniqueId: EOS:|aa11"
      "7" "1" false "Srv" true).notifications = [] ∧
    (parseLogContent
      { fileStates := [], playerNameCache := [], persisted := none,
        playerLifecycle := [("7_aa11", { name := "Foo", platform := "PS5",
                                         state := "queued" })],
        playerSessions := [] }
      "LogNet: UChannel::Close: Sending CloseBunch UniqueId: EOS:|aa11"
      "7" "1" false "Srv" true).state.playerLifecycle =
      [("7_aa11", { name := "Foo", platform := "PS5", state := "queued" })] ∧
    (parseLogContent
      { fileStates := [], playerNameCache := [], persisted := none,
        playerLifecycle := [("7_aa11", { name := "Foo", platform := "PS5",
                                         state := "queued" })],
        playerSessions := [] }
      "LogNet: UChannel::Close: Sending CloseBunch UniqueId: EOS:|aa11"
      "7" "1" false "Srv" true).state.playerSessions = [] :=
  c5_amended_dangling_disconnect _
    "LogNet: UChannel::Close: Sending CloseBunch UniqueId: EOS:|aa11"
    "7" "1" "Srv" "aa11" true (by decide) (by decide) (by decide) (by decide) (by decide)
    (by decide) (by decide) (by decide) (by decide) (by decide) (by decide)

/-! ### Claim C6 -/

/-- C6: a connect-confirm line for an identifier with no prior
connect-intent record is not dropped — the scan creates a lifecycle
record directly in state joined under the deterministic placeholder name
`Player` + first 8 characters uppercased, upserts an online session
record, and (being non-cold) emits exactly one player-connected
notification carrying that placeholder. -/
theorem c6_confirm_without_intent (st : ParserState)
    (line guildId serverId serverName playerId : String) (saveOk : Bool)
    (hq : matchQueueJoin line = none) (hr : matchRegistered line = some playerId)
    (hd : matchDisconnect line = none)
    (hlc : mapGet st.playerLifecycle (guildId ++ "_" ++ playerId) = none)
    (hsplit : splitlines line = [line])
    (hfresh : mapGet st.fileStates (guildId ++ "_" ++ serverId) = none)
    (hm : matchMissionStateChange line = none)
    (ha : airdropFlying line = false) (hh1 : helicrashEvent line = false)
    (hh2 : helicrashCrash line = false) (ht : traderArrival line = false) :
    mapGet (parseLogContent st line guildId serverId false serverName saveOk).state.playerLifecycle
      (guildId ++ "_" ++ playerId) =
      some { name := placeholderName playerId, platform := "Unknown", state := "joined" } ∧
    mapGet (parseLogContent st line guildId serverId false serverName saveOk).state.playerSessions
      (guildId ++ "_" ++ playerId) =
      some { playerId := playerId, playerName := placeholderName playerId,
             platform := "Unknown", guildId := guildId, status := "online" } ∧
    (parseLogContent st line guildId serverId false serverName saveOk).notifications =
      [Notification.playerConnected (placeholderName playerId) "Unknown" serverName] := by
  have hne : ¬line = "" := by
    intro h
    rw [h] at hr
    exact Option.noConfusion hr
  have hgd : ((mapGet st.fileStates (guildId ++ "_" ++ serverId)).map (·.lineCount)).getD 0 = 0 := by
    rw [hfresh]; rfl
  rw [parseLogContent_of_slice st line guildId serverId serverName false saveOk
    (splitlines line) hne (by rw [hgd, sliceDecision, if_pos (Or.inr rfl)]), hsplit]
  have hcol : collectPhase guildId st.playerLifecycle [line] =
      { lifecycle := mapSet st.playerLifecycle (guildId ++ "_" ++ playerId)
          { name := placeholderName playerId, platform := "Unknown", state := "joined" },
        events := [{ type := "join", playerId := playerId,
                     timestamp := matchTimestamp line, line := line }] } := by
    rw [collectPhase, List.foldl_cons, List.foldl_nil, collectLine]
    simp only [hq, hr, hd, hlc, List.nil_append]
  rw [hcol]
  have hsort : sortEvents ([{ type := "join", playerId := playerId,
                              timestamp := matchTimestamp line,
                              line := line }] : List PlayerEvent) =
      [{ type := "join", playerId := playerId,
         timestamp := matchTimestamp line, line := line }] := rfl
  have happ : List.foldl
      (applyEvent false guildId serverName
        (mapSet st.playerLifecycle (guildId ++ "_" ++ playerId)
          { name := placeholderName playerId, platform := "Unknown", state := "joined" }))
      { sessions := st.playerSessions, notifs := [], voiceUpdate := false }
      (sortEvents ([{ type := "join", playerId := playerId,
                       timestamp := matchTimestamp line,
                       line := line }] : List PlayerEvent)) =
      { sessions := mapSet st.playerSessions (guildId ++ "_" ++ playerId)
          { playerId := playerId, playerName := placeholderName playerId,
            platform := "Unknown", guildId := guildId, status := "online" },
        notifs := [Notification.playerConnected (placeholderName playerId) "Unknown" serverName],
        voiceUpdate := true } := by
    rw [hsort, List.foldl_cons, List.foldl_nil, applyEvent]
    simp [mapGet_mapSet_self]
  rw [happ]
  refine ⟨mapGet_mapSet_self _ _ _, mapGet_mapSet_self _ _ _, ?_⟩
  simp [passBLine, missionNotifsOfLine, hm, ha, hh1, hh2, ht]

/-- C6 (witness): a concrete confirm line with no prior intent. -/
theorem c6_confirm_without_intent_witness :
    mapGet (parseLogContent freshState
      "LogOnline: Warning: Player |aa11 successfully registered!" "7" "1" false "Srv"
      true).state.playerLifecycle "7_aa11" =
      some { name := placeholderName "aa11", platform := "Unknown", state := "joined" } ∧
    mapGet (parseLogContent freshState
      "LogOnline: Warning: Player |aa11 successfully registered!" "7" "1" false "Srv"
      true).state.playerSessions "7_aa11" =
      some { playerId := "aa11", playerName := placeholderName "aa11", platform := "Unknown",
             guildId := "7", status := "online" } ∧
    (parseLogContent freshState
      "LogOnline: Warning: Player |aa11 successfully registered!" "7" "1" false "Srv"
      true).notifications =
      [Notification.playerConnected (placeholderName "aa11") "Unknown" "Srv"] :=
  c6_confirm_without_intent freshState
    "LogOnline: Warning: Player |aa11 successfully registered!" "7" "1" "Srv" "aa11" true
    (by decide) (by decide) (by decide) (by decide) (by decide) (by decide) (by decide)
    (by decide) (by decide) (by decide) (by decide)

/-! ### Claim C7 -/

/-- C7 (code-bug evaluation): resolving `"abcd1234wxyz5678"` with no
backing data yields the placeholder `"PlayerABCD5678"` and caches it
(the first and any repeated resolution return the same placeholder);
but once the persistent store holds the proper name `"Alice"` — a name
the acceptance filter itself approves — the next resolution still
returns the cached placeholder and leaves the cache untouched.  The
cache short-circuit tests `startswith("Player_")`, which the generated
placeholder format `Player<AAAA><BBBB>` never matches, so a cached
placeholder is treated as a proper name and is never superseded. -/
theorem c7_cached_placeholder_shadows_store :
    resolvePlayerName [] [] []
      (some { pvpExactName := none, pvpPrefixNames := fun _ => [], pvpRecentDocs := [],
              linkedName := none, killDocs := [] }) "abcd1234wxyz5678" "7" =
      ("PlayerABCD5678", [("7_abcd1234wxyz5678", "PlayerABCD5678")]) ∧
    resolvePlayerName [("7_abcd1234wxyz5678", "PlayerABCD5678")] [] []
      (some { pvpExactName := none, pvpPrefixNames := fun _ => [], pvpRecentDocs := [],
              linkedName := none, killDocs := [] }) "abcd1234wxyz5678" "7" =
      ("PlayerABCD5678", [("7_abcd1234wxyz5678", "PlayerABCD5678")]) ∧
    resolvePlayerName [("7_abcd1234wxyz5678", "PlayerABCD5678")] [] []
      (some { pvpExactName := some "Alice", pvpPrefixNames := fun _ => [], pvpRecentDocs := [],
              linkedName := none, killDocs := [] }) "abcd1234wxyz5678" "7" =
      ("PlayerABCD5678", [("7_abcd1234wxyz5678", "PlayerABCD5678")]) ∧
    acceptableStoreName "Alice" = true ∧
    resolvePlayerName [] [] []
      (some { pvpExactName := some "Alice", pvpPrefixNames := fun _ => [], pvpRecentDocs := [],
              linkedName := none, killDocs := [] }) "abcd1234wxyz5678" "7" =
      ("Alice", [("7_abcd1234wxyz5678", "Alice")]) := by
  decide

/-! ### Claim C8 -/

/-- C8 (counterexample): a failed persistence write is not surfaced as a
failed cycle and does not cause the slice to be retried.  With the write
failing, the scan still returns its notification normally, the persisted
snapshot stays behind, and — because the in-memory cursor advanced — the
very next invocation on the same content processes an empty slice
instead of retrying the one whose persistence failed. -/
theorem c8_counterexample_failure_swallowed :
    (parseLogContent
      { fileStates := [("7_1", { lineCount := 1, coldStartComplete := true })],
        playerLifecycle := [], playerSessions := [], playerNameCache := [], persisted := none }
      "x\nLogOnline: Warning: Player |aa11 successfully registered!"
      "7" "1" false "Srv" false).notifications =
      [Notification.playerConnected "PlayerAA11" "Unknown" "Srv"] ∧
    (parseLogContent
      { fileStates := [("7_1", { lineCount := 1, coldStartComplete := true })],
        playerLifecycle := [], playerSessions := [], playerNameCache := [], persisted := none }
      "x\nLogOnline: Warning: Player |aa11 successfully registered!"
      "7" "1" false "Srv" false).state.persisted = none ∧
    (parseLogContent
      (parseLogContent
        { fileStates := [("7_1", { lineCount := 1, coldStartComplete := true })],
          playerLifecycle := [], playerSessions := [], playerNameCache := [], persisted := none }
        "x\nLogOnline: Warning: Player |aa11 successfully registered!"
        "7" "1" false "Srv" false).state
      "x\nLogOnline: Warning: Player |aa11 successfully registered!"
      "7" "1" false "Srv" false).slice = [] ∧
    (parseLogContent
      (parseLogContent
        { fileStates := [("7_1", { lineCount := 1, coldStartComplete := true })],
          playerLifecycle := [], playerSessions := [], playerNameCache := [], persisted := none }
        "x\nLogOnline: Warning: Player |aa11 successfully registered!"
        "7" "1" false "Srv" false).state
      "x\nLogOnline: Warning: Player |aa11 successfully registered!"
      "7" "1" false "Srv" false).notifications = [] := by
  decide

/-- C8 (amended): `_save_persistent_state` catches the failed write and
the scan proceeds identically to a successful cycle — same
notifications, same processed slice, same in-memory cursor, lifecycle
and session state — and only the persisted snapshot is left unchanged,
so the slice is reprocessed only after a restart that reloads persisted
state, not on the next in-process invocation. -/
theorem c8_amended_swallowed_persistence_failure (st : ParserState)
    (content guildId serverId serverName : String) (cold : Bool) :
    (parseLogContent st content guildId serverId cold serverName false).notifications =
      (parseLogContent st content guildId serverId cold serverName true).notifications ∧
    (parseLogContent st content guildId serverId cold serverName false).slice =
      (parseLogContent st content guildId serverId cold serverName true).slice ∧
    (parseLogContent st content guildId serverId cold serverName false).state.fileStates =
      (parseLogContent st content guildId serverId cold serverName true).state.fileStates ∧
    (parseLogContent st content guildId serverId cold serverName false).state.playerLifecycle =
      (parseLogContent st content guildId serverId cold serverName true).state.playerLifecycle ∧
    (parseLogContent st content guildId serverId cold serverName false).state.playerSessions =
      (parseLogContent st content guildId serverId cold serverName true).state.playerSessions ∧
    (parseLogContent st content guildId serverId cold serverName false).state.persisted =
      st.persisted := by
  by_cases hc : content = ""
  · rw [parseLogContent_of_noop st content guildId serverId serverName cold false (Or.inl hc),
      parseLogContent_of_noop st content guildId serverId serverName cold true (Or.inl hc)]
    exact ⟨rfl, rfl, rfl, rfl, rfl, rfl⟩
  · cases hsd : sliceDecision cold
      (((mapGet st.fileStates (guildId ++ "_" ++ serverId)).map (·.lineCount)).getD 0)
      (splitlines content) with
    | none =>
      rw [parseLogContent_of_noop st content guildId serverId serverName cold false (Or.inr hsd),
        parseLogContent_of_noop st content guildId serverId serverName cold true (Or.inr hsd)]
      exact ⟨rfl, rfl, rfl, rfl, rfl, rfl⟩
    | some ltp =>
      rw [parseLogContent_of_slice st content guildId serverId serverName cold false ltp hc hsd,
        parseLogContent_of_slice st content guildId serverId serverName cold true ltp hc hsd]
      exact ⟨rfl, rfl, rfl, rfl, rfl, rfl⟩

/-! ### Claim C9 -/

/-- C9 (counterexample): per-player state is keyed by the tenant and the
player identifier only, so two servers of the same tenant share it.  A
confirm observed while scanning server "1" of guild "7" creates the
joined record `7_aa11`; a later scan of server "2" of the same guild
containing a disconnect line for the same identifier reads that record,
moves it to disconnected, and emits a player-disconnected notification —
an event from one server reading and writing state created by a
different server of the same tenant. -/
theorem c9_counterexample_cross_server_state :
    (parseLogContent
      (parseLogContent
        { fileStates := [("7_1", { lineCount := 0, coldStartComplete := true }),
                         ("7_2", { lineCount := 0, coldStartComplete := true })],
          playerLifecycle := [], playerSessions := [], playerNameCache := [],
          persisted := none }
        "LogOnline: Warning: Player |aa11 successfully registered!"
        "7" "1" false "S1" true).state
      "LogNet: UChannel::Close: Sending CloseBunch UniqueId: EOS:|aa11"
      "7" "2" false "S2" true).notifications =
      [Notification.playerDisconnected "PlayerAA11" "Unknown" "S2"] ∧
    (mapGet (parseLogContent
      (parseLogContent
        { fileStates := [("7_1", { lineCount := 0, coldStartComplete := true }),
                         ("7_2", { lineCount := 0, coldStartComplete := true })],
          playerLifecycle := [], playerSessions := [], playerNameCache := [],
          persisted := none }
        "LogOnline: Warning: Player |aa11 successfully registered!"
        "7" "1" false "S1" true).state
      "LogNet: UChannel::Close: Sending CloseBunch UniqueId: EOS:|aa11"
      "7" "2" false "S2" true).state.playerLifecycle "7_aa11").map LifecycleRec.state =
      some "disconnected" := by
  decide

/-- C9 (amended): per-player state is partitioned by tenant, not by
(tenant, server): the lifecycle map, session table, notifications,
processed slice and the occupancy counts produced by a scan are
independent of which server identifier of the tenant the scan runs
under, provided the two sources carry equal cursor state; only the
per-source cursor entry is keyed by (tenant, server). -/
theorem c9_amended_tenant_partition (st : ParserState)
    (content guildId s1 s2 serverName : String) (cold saveOk : Bool)
    (hfs : mapGet st.fileStates (guildId ++ "_" ++ s1) =
      mapGet st.fileStates (guildId ++ "_" ++ s2)) :
    (parseLogContent st content guildId s1 cold serverName saveOk).state.playerLifecycle =
      (parseLogContent st content guildId s2 cold serverName saveOk).state.playerLifecycle ∧
    (parseLogContent st content guildId s1 cold serverName saveOk).state.playerSessions =
      (parseLogContent st content guildId s2 cold serverName saveOk).state.playerSessions ∧
    (parseLogContent st content guildId s1 cold serverName saveOk).notifications =
      (parseLogContent st content guildId s2 cold serverName saveOk).notifications ∧
    (parseLogContent st content guildId s1 cold serverName saveOk).slice =
      (parseLogContent st content guildId s2 cold serverName saveOk).slice ∧
    countOnlinePlayers guildId
        (parseLogContent st content guildId s1 cold serverName saveOk).state.playerSessions =
      countOnlinePlayers guildId
        (parseLogContent st content guildId s2 cold serverName saveOk).state.playerSessions ∧
    countQueuedPlayers guildId
        (parseLogContent st content guildId s1 cold serverName saveOk).state.playerLifecycle =
      countQueuedPlayers guildId
        (parseLogContent st content guildId s2 cold serverName saveOk).state.playerLifecycle := by
  by_cases hc : content = ""
  · rw [parseLogContent_of_noop st content guildId s1 serverName cold saveOk (Or.inl hc),
      parseLogContent_of_noop st content guildId s2 serverName cold saveOk (Or.inl hc)]
    exact ⟨rfl, rfl, rfl, rfl, rfl, rfl⟩
  · cases hsd : sliceDecision cold
      (((mapGet st.fileStates (guildId ++ "_" ++ s1)).map (·.lineCount)).getD 0)
      (splitlines content) with
    | none =>
      rw [parseLogContent_of_noop st content guildId s1 serverName cold saveOk (Or.inr hsd),
        parseLogContent_of_noop st content guildId s2 serverName cold saveOk
          (Or.inr (by rw [← hfs]; exact hsd))]
      exact ⟨rfl, rfl, rfl, rfl, rfl, rfl⟩
    | some ltp =>
      rw [parseLogContent_of_slice st content guildId s1 serverName cold saveOk ltp hc hsd,
        parseLogContent_of_slice st content guildId s2 serverName cold saveOk ltp hc
          (by rw [← hfs]; exact hsd)]
      exact ⟨rfl, rfl, rfl, rfl, rfl, rfl⟩

/-- C9 (amended, witness): the same confirm line scanned under two
different server identifiers of one guild produces identical per-player
state and notifications. -/
theorem c9_amended_tenant_partition_witness :
    (parseLogContent freshState "LogOnline: Warning: Player |aa11 successfully registered!"
        "7" "1" false "Srv" true).state.playerLifecycle =
      (parseLogContent freshState "LogOnline: Warning: Player |aa11 successfully registered!"
        "7" "2" false "Srv" true).state.playerLifecycle ∧
    (parseLogContent freshState "LogOnline: Warning: Player |aa11 successfully registered!"
        "7" "1" false "Srv" true).state.playerSessions =
      (parseLogContent freshState "LogOnline: Warning: Player |aa11 successfully registered!"
        "7" "2" false "Srv" true).state.playerSessions ∧
    (parseLogContent freshState "LogOnline: Warning: Player |aa11 successfully registered!"
        "7" "1" false "Srv" true).notifications =
      (parseLogContent freshState "LogOnline: Warning: Player |aa11 successfully registered!"
        "7" "2" false "Srv" true).notifications ∧
    (parseLogContent freshState "LogOnline: Warning: Player |aa11 successfully registered!"
        "7" "1" false "Srv" true).slice =
      (parseLogContent freshState "LogOnline: Warning: Player |aa11 successfully registered!"
        "7" "2" false "Srv" true).slice ∧
    countOnlinePlayers "7"
        (parseLogContent freshState "LogOnline: Warning: Player |aa11 successfully registered!"
          "7" "1" false "Srv" true).state.playerSessions =
      countOnlinePlayers "7"
        (parseLogContent freshState "LogOnline: Warning: Player |aa11 successfully registered!"
          "7" "2" false "Srv" true).state.playerSessions ∧
    countQueuedPlayers "7"
        (parseLogContent freshState "LogOnline: Warning: Player |aa11 successfully registered!"
          "7" "1" false "Srv" true).state.playerLifecycle =
      countQueuedPlayers "7"
        (parseLogContent freshState "LogOnline: Warning: Player |aa11 successfully registered!"
          "7" "2" false "Srv" true).state.playerLifecycle :=
  c9_amended_tenant_partition freshState
    "LogOnline: Warning: Player |aa11 successfully registered!" "7" "1" "2" "Srv" false true
    (by decide)

/-! ### Claim C10 -/

/-- C10: on a hot scan, the mission branch of the second pass emits a
notification for a matched mission-transition line exactly when the
captured new-state token is `READY` and the mission's difficulty level
is at least 3; `get_mission_level` always returns a value between 1 and
5 and returns 1 for identifiers hitting none of its keyword groups. -/
theorem c10_mission_ready_filter :
    (∀ line missionId newState : String,
      matchMissionStateChange line = some (missionId, newState) →
      (missionNotifsOfLine false line ≠ [] ↔
        newState = "READY" ∧ 3 ≤ get_mission_level missionId)) ∧
    (∀ missionId : String,
      1 ≤ get_mission_level missionId ∧ get_mission_level missionId ≤ 5) ∧
    (∀ missionId : String, missionKeywordHit missionId = false →
      get_mission_level missionId = 1) := by
  refine ⟨?_, ?_, ?_⟩
  · intro line missionId newState h
    rw [missionNotifsOfLine]
    simp only [h]
    by_cases hS : newState = "READY"
    · subst hS
      by_cases hL : 3 ≤ get_mission_level missionId
      · simp [hL, createMissionEmbed]
      · simp [hL]
    · simp [hS]
  · intro missionId
    rw [get_mission_level]
    split_ifs <;> omega
  · intro missionId hk
    rw [missionKeywordHit] at hk
    simp only [Bool.or_eq_false_iff] at hk
    obtain ⟨⟨⟨⟨⟨⟨⟨⟨⟨⟨h1, h2⟩, h3⟩, h4⟩, h5⟩, h6⟩, h7⟩, h8⟩, h9⟩, h10⟩, h11⟩ := hk
    rw [get_mission_level]
    simp [h1, h2, h3, h4, h5, h6, h7, h8, h9, h10, h11]

/-- C10 (witness): a level-5 READY line does produce a notification, and
an unmapped identifier gets level 1. -/
theorem c10_mission_ready_filter_witness :
    (missionNotifsOfLine false "LogSFPS: Mission GA_Military_02_Mis1 switched to READY" ≠ [] ↔
      "READY" = "READY" ∧ 3 ≤ get_mission_level "GA_Military_02_Mis1") ∧
    (1 ≤ get_mission_level "GA_Bochki_Mis_1" ∧ get_mission_level "GA_Bochki_Mis_1" ≤ 5) ∧
    get_mission_level "GA_Bochki_Mis_1" = 1 :=
  ⟨c10_mission_ready_filter.1 "LogSFPS: Mission GA_Military_02_Mis1 switched to READY"
      "GA_Military_02_Mis1" "READY" (by decide),
    c10_mission_ready_filter.2.1 "GA_Bochki_Mis_1",
    c10_mission_ready_filter.2.2 "GA_Bochki_Mis_1" (by decide)⟩
